import Mathlib

/-
Verification of the FlightDataDB storage engine
(src/backend/tools/flight_data_db.py) against its specification.

The engine ingests columnar telemetry batches into per-session DuckDB
stores, inferring one column type per field from a sample row, and later
reconciles tables whose declared numeric columns contain text-encoded
arrays.  We embed the Python code shallowly: Python runtime values become
the inductive `PyVal`, exceptions become the inductive `PyError` threaded
through `Except`, and the per-session store becomes an explicit record of
tables.  Python's numeric tower is modelled with exact arithmetic
(`Int` and `Rat`); float rounding is outside the model.
-/

namespace FlightDB

/-- A Python runtime value as it occurs in the engine's data paths:
`None`, `int`, `float`, `str`, `bool`, `list`, or `dict` (nested mapping
with string keys, the shape that reaches the engine from parsed JSON). -/
inductive PyVal where
  | none : PyVal
  | int (n : Int) : PyVal
  | float (q : Rat) : PyVal
  | str (s : String) : PyVal
  | bool (b : Bool) : PyVal
  | list (items : List PyVal) : PyVal
  | dict (entries : List (String × PyVal)) : PyVal

/-- The exception classes of flight_data_db.py that reach the data paths:
`DataValidationError`, `DatabaseConnectionError`, and their common base
class `FlightDataDBError` (raised directly by the wrap-and-rethrow
handlers).  Each carries its message string. -/
inductive PyError where
  | validation (msg : String) : PyError
  | connection (msg : String) : PyError
  | flightData (msg : String) : PyError

/-- Python `str(e)` on an exception: its message. -/
def PyError.msg : PyError → String
  | .validation m => m
  | .connection m => m
  | .flightData m => m

/-- Python `isinstance(v, int)`.  In Python, `bool` is a subclass of
`int`, so booleans satisfy this check. -/
def isInstInt : PyVal → Bool
  | .int _ => true
  | .bool _ => true
  | _ => false

/-- Python `isinstance(v, float)`.  Booleans are not floats. -/
def isInstFloat : PyVal → Bool
  | .float _ => true
  | _ => false

/-- Python `isinstance(v, str)`. -/
def isInstStr : PyVal → Bool
  | .str _ => true
  | _ => false

/-- Python `isinstance(v, bool)`. -/
def isInstBool : PyVal → Bool
  | .bool _ => true
  | _ => false

/-- Python `isinstance(v, list)`. -/
def isInstList : PyVal → Bool
  | .list _ => true
  | _ => false

/-- Python `isinstance(v, (int, float))`: ints, bools (int subclass) and
floats. -/
def isInstIntFloat (v : PyVal) : Bool := isInstInt v || isInstFloat v

/-- Python `isinstance(v, (int, float, str, bool))`. -/
def isInstScalar (v : PyVal) : Bool :=
  isInstInt v || isInstFloat v || isInstStr v || isInstBool v

/-- Python `isinstance(v, (int, float, str, bool, list))`, the cell type
check in store_flight_data. -/
def isAllowedCellType (v : PyVal) : Bool := isInstScalar v || isInstList v

/-- A single-quote character, as used by Python repr and error message
interpolation. -/
def pyQuote : String := String.singleton (Char.ofNat 39)

/-- Python `type(v)` name, as interpolated into error messages. -/
def pyTypeName : PyVal → String
  | .none => "NoneType"
  | .int _ => "int"
  | .float _ => "float"
  | .str _ => "str"
  | .bool _ => "bool"
  | .list _ => "list"
  | .dict _ => "dict"

/-- Python `str(type(v))`, e.g. the text <class 'dict'>. -/
def pyTypeStr (v : PyVal) : String :=
  "<class " ++ pyQuote ++ pyTypeName v ++ pyQuote ++ ">"

/-- Lookup in a Python dict modelled as an ordered association list
(`d.get(k)` / `k in d`); keys are unique in any dict built by Python. -/
def alookup {β : Type} (k : String) : List (String × β) → Option β
  | [] => Option.none
  | (k2, v) :: rest => if k2 = k then Option.some v else alookup k rest

/-- Python `s.startswith(c)` for a single-character argument. -/
def strHeadIs (s : String) (c : Char) : Bool :=
  match s.toList with
  | [] => false
  | c2 :: _ => c2 = c

/-- Python `s.endswith(c)` for a single-character argument. -/
def strLastIs (s : String) (c : Char) : Bool :=
  match s.toList.getLast? with
  | Option.some c2 => c2 = c
  | Option.none => false

/-- Lowercase one ASCII character, as Python `str.lower` does on the
ASCII field names the engine sees. -/
def lowerChar (c : Char) : Char :=
  if 65 ≤ c.toNat ∧ c.toNat ≤ 90 then Char.ofNat (c.toNat + 32) else c

/-- Python `s.lower()` restricted to ASCII strings (field names). -/
def lowerString (s : String) : String :=
  String.mk (s.toList.map lowerChar)

/-- Skip JSON whitespace. -/
def skipWs : List Char → List Char
  | c :: cs => if c = ' ' ∨ c = '\t' ∨ c = '\n' ∨ c = '\r' then skipWs cs else c :: cs
  | [] => []

/-- Split off a maximal run of decimal digits. -/
def takeDigits : List Char → (List Char × List Char)
  | c :: cs =>
    if c.isDigit then
      let (ds, rest) := takeDigits cs
      (c :: ds, rest)
    else ([], c :: cs)
  | [] => ([], [])

/-- Value of a digit string. -/
def digitsToNat (ds : List Char) : Nat :=
  ds.foldl (fun acc c => acc * 10 + (c.toNat - 48)) 0

/-- Parse a JSON number (optional minus sign, digits, optional fraction).
Returns the value (int, or float for fractional literals) and the
remaining input.  Exponent forms are not produced by the engine's
`json.dumps` output and are outside the model. -/
def parseJsonNumber (cs : List Char) : Option (PyVal × List Char) :=
  let (neg, cs1) := match cs with
    | '-' :: rest => (true, rest)
    | _ => (false, cs)
  match takeDigits cs1 with
  | ([], _) => Option.none
  | (ds, rest) =>
    match rest with
    | '.' :: rest2 =>
      match takeDigits rest2 with
      | ([], _) => Option.none
      | (fs, rest3) =>
        let num : Int := Int.ofNat (digitsToNat (ds ++ fs))
        let q : Rat := (if neg then -num else num : Int) / ((10 : Rat) ^ fs.length)
        Option.some (PyVal.float q, rest3)
    | _ =>
      let n : Int := Int.ofNat (digitsToNat ds)
      Option.some (PyVal.int (if neg then -n else n), rest)

/-- Check that `p` is an initial segment of the input and return the rest. -/
def dropLit : List Char → List Char → Option (List Char)
  | [], cs => Option.some cs
  | p :: ps, c :: cs => if c = p then dropLit ps cs else Option.none
  | _ :: _, [] => Option.none

mutual

/-- Recursive-descent JSON value token: array, number, simple string
(escape sequences are outside the model), `true`, `false`, `null`.
`fuel` bounds the recursion depth; `jsonLoads` supplies enough of it. -/
def parseJsonVal : Nat → List Char → Option (PyVal × List Char)
  | 0, _ => Option.none
  | Nat.succ fuel, cs =>
    match skipWs cs with
    | '[' :: rest =>
      match skipWs rest with
      | ']' :: rest2 => Option.some (PyVal.list [], rest2)
      | rest2 =>
        match parseJsonElems fuel rest2 with
        | Option.some (vs, rest3) => Option.some (PyVal.list vs, rest3)
        | Option.none => Option.none
    | '"' :: rest =>
      match (rest.takeWhile (· ≠ '"'), rest.dropWhile (· ≠ '"')) with
      | (s, '"' :: rest2) => Option.some (PyVal.str (String.mk s), rest2)
      | _ => Option.none
    | 't' :: rest =>
      match dropLit ['r', 'u', 'e'] rest with
      | Option.some rest2 => Option.some (PyVal.bool true, rest2)
      | Option.none => Option.none
    | 'f' :: rest =>
      match dropLit ['a', 'l', 's', 'e'] rest with
      | Option.some rest2 => Option.some (PyVal.bool false, rest2)
      | Option.none => Option.none
    | 'n' :: rest =>
      match dropLit ['u', 'l', 'l'] rest with
      | Option.some rest2 => Option.some (PyVal.none, rest2)
      | Option.none => Option.none
    | cs2 => parseJsonNumber cs2

/-- Comma-separated JSON array elements up to the closing bracket. -/
def parseJsonElems : Nat → List Char → Option (List PyVal × List Char)
  | 0, _ => Option.none
  | Nat.succ fuel, cs =>
    match parseJsonVal fuel cs with
    | Option.none => Option.none
    | Option.some (v, rest) =>
      match skipWs rest with
      | ',' :: rest2 =>
        match parseJsonElems fuel rest2 with
        | Option.some (vs, rest3) => Option.some (v :: vs, rest3)
        | Option.none => Option.none
      | ']' :: rest2 => Option.some ([v], rest2)
      | _ => Option.none

end

/-- Python `json.loads`, restricted to the grammar the engine encounters
(arrays, numbers, simple strings, literals).  `Option.none` models a
raised `json.JSONDecodeError`. -/
def jsonLoads (s : String) : Option PyVal :=
  match parseJsonVal (2 * s.length + 2) s.toList with
  | Option.some (v, rest) =>
    if skipWs rest = [] then Option.some v else Option.none
  | Option.none => Option.none

mutual

/-- Python `json.dumps` on the engine's values (default separators).
Float rendering and string escaping are simplified; no claim inspects
those renderings. -/
def jsonDumps : PyVal → String
  | .none => "null"
  | .int n => toString n
  | .float q => toString q.num ++ "/" ++ toString q.den
  | .str s => "\"" ++ s ++ "\""
  | .bool b => if b then "true" else "false"
  | .list xs => "[" ++ jsonDumpsList xs ++ "]"
  | .dict kvs => "\x7b" ++ jsonDumpsEntries kvs ++ "\x7d"

/-- Comma-joined `json.dumps` of list items. -/
def jsonDumpsList : List PyVal → String
  | [] => ""
  | [x] => jsonDumps x
  | x :: xs => jsonDumps x ++ ", " ++ jsonDumpsList xs

/-- Comma-joined `json.dumps` of dict entries. -/
def jsonDumpsEntries : List (String × PyVal) → String
  | [] => ""
  | [(k, v)] => "\"" ++ k ++ "\": " ++ jsonDumps v
  | (k, v) :: kvs => "\"" ++ k ++ "\": " ++ jsonDumps v ++ ", " ++ jsonDumpsEntries kvs

end

mutual

/-- Python `repr` on the engine's values; `str` on lists and dicts uses
it for their elements.  Float rendering and string escaping are
simplified; no claim inspects those renderings. -/
def pyRepr : PyVal → String
  | .none => "None"
  | .int n => toString n
  | .float q => toString q.num ++ "/" ++ toString q.den
  | .str s => pyQuote ++ s ++ pyQuote
  | .bool b => if b then "True" else "False"
  | .list xs => "[" ++ pyReprList xs ++ "]"
  | .dict kvs => "\x7b" ++ pyReprEntries kvs ++ "\x7d"

/-- Comma-joined `repr` of list items. -/
def pyReprList : List PyVal → String
  | [] => ""
  | [x] => pyRepr x
  | x :: xs => pyRepr x ++ ", " ++ pyReprList xs

/-- Comma-joined `repr` of dict entries. -/
def pyReprEntries : List (String × PyVal) → String
  | [] => ""
  | [(k, v)] => pyQuote ++ k ++ pyQuote ++ ": " ++ pyRepr v
  | (k, v) :: kvs => pyQuote ++ k ++ pyQuote ++ ": " ++ pyRepr v ++ ", " ++ pyReprEntries kvs

end

/-- Python `str(v)`: identical to `repr` except on strings, where it is
the string itself. -/
def pythonStr : PyVal → String
  | .str s => s
  | v => pyRepr v

/-- Parse a Python float literal (optional sign, digits, optional
fractional part), as accepted by `float(s)` on the strings the engine
produces; `Option.none` models a raised `ValueError`. -/
def parsePyFloat (s : String) : Option Rat :=
  let cs := skipWs s.toList
  let (neg, cs1) := match cs with
    | '-' :: rest => (true, rest)
    | '+' :: rest => (false, rest)
    | _ => (false, cs)
  match takeDigits cs1 with
  | ([], _) => Option.none
  | (ds, rest) =>
    let (fs, rest2) := match rest with
      | '.' :: r => takeDigits r
      | _ => ([], rest)
    if skipWs rest2 = [] then
      let num : Int := Int.ofNat (digitsToNat (ds ++ fs))
      let q : Rat := (num : Rat) / ((10 : Rat) ^ fs.length)
      Option.some (if neg then -q else q)
    else Option.none

/-- Truncation toward zero, as Python `int(x)` does on a float. -/
def pyTrunc (q : Rat) : Int := Int.tdiv q.num (Int.ofNat q.den)

/-- Python `int(float(str(v)))`, returning `Option.none` when the
conversion raises `ValueError` or `TypeError`:
ints round-trip through their decimal text; floats round-trip exactly
through `str` in Python 3 and are then truncated toward zero; strings go
through the float literal parser; `bool`, `None`, lists and dicts
stringify to non-numeric text, so `float` raises. -/
def intFloatStr : PyVal → Option Int
  | .int n => Option.some n
  | .float q => Option.some (pyTrunc q)
  | .str s =>
    match parsePyFloat s with
    | Option.some q => Option.some (pyTrunc q)
    | Option.none => Option.none
  | _ => Option.none

/-- FlightDataDB._infer_duckdb_type: maps a sample value to a DuckDB
column type.  The branch order follows the source exactly; in
particular the `isinstance(sample, int)` test comes first and, since
Python's `bool` is a subclass of `int`, captures booleans before the
later `isinstance(sample, bool)` branch can run. -/
def _infer_duckdb_type (sample : PyVal) : String :=
  if isInstInt sample then "BIGINT"
  else if isInstFloat sample then "DOUBLE"
  else if isInstStr sample then "VARCHAR"
  else if isInstBool sample then "BOOLEAN"
  else
    match sample with
    | .list [] => "VARCHAR"
    | .list (v0 :: vs) =>
      match v0 with
      | .list (w0 :: _) => if isInstIntFloat w0 then "BIGINT" else "VARCHAR"
      | _ =>
        if (v0 :: vs).all isInstIntFloat then "BIGINT"
        else if (v0 :: vs).all isInstStr then "VARCHAR"
        else "VARCHAR"
    | _ => "VARCHAR"

/-- The fixed name-override set checked in _create_table_for_message:
`field.lower() in ("timeus", "time_boot_ms", "timestamp")`. -/
def timeOverrideNames : List String := ["timeus", "time_boot_ms", "timestamp"]

/-- The column type _create_table_for_message chooses for one field:
the inferred type, forced to BIGINT when the lowercased field name is in
the override set. -/
def columnTypeFor (field : String) (sample : PyVal) : String :=
  let duckdb_type := _infer_duckdb_type sample
  if lowerString field ∈ timeOverrideNames then "BIGINT" else duckdb_type

/-- FlightDataDB._process_field_value without its outermost rewrap
handler: normalizes one raw cell value for storage.  Follows the source
branch for branch: `None` and the empty list become null; a
`time_unix_usec` cell that is a list whose first element is a list is
unwrapped to that inner list's first element when numeric and rejected
otherwise; a singleton list wrapping a scalar is unwrapped; any other
non-empty list is JSON-encoded; accepted scalars pass through; anything
else (a dict in this value universe) is converted with `str`. -/
def processFieldValueBody (value : PyVal) (field : String) (msg_name : String) :
    Except PyError PyVal :=
  match value with
  | .none => Except.ok PyVal.none
  | .list [] => Except.ok PyVal.none
  | .list (v0 :: vs) =>
    match v0 with
    | .list inner =>
      if field = "time_unix_usec" then
        match inner with
        | [] =>
          Except.error (PyError.validation
            ("Invalid time_unix_usec format in message " ++ msg_name ++
             ": expected list of numeric arrays"))
        | w0 :: _ =>
          if isInstIntFloat w0 then Except.ok w0
          else
            Except.error (PyError.validation
              ("Invalid time_unix_usec format in message " ++ msg_name ++
               ": expected list of numeric arrays"))
      else
        -- a list first element is never an accepted scalar, so the
        -- singleton-unwrap test fails and the list is JSON-encoded
        Except.ok (PyVal.str (jsonDumps (PyVal.list (v0 :: vs))))
    | _ =>
      if vs.isEmpty && isInstScalar v0 then Except.ok v0
      else Except.ok (PyVal.str (jsonDumps (PyVal.list (v0 :: vs))))
  | .int n => Except.ok (PyVal.int n)
  | .float q => Except.ok (PyVal.float q)
  | .str s => Except.ok (PyVal.str s)
  | .bool b => Except.ok (PyVal.bool b)
  | .dict kvs => Except.ok (PyVal.str (pythonStr (PyVal.dict kvs)))

/-- FlightDataDB._process_field_value including its outermost handler,
which catches any raised error and rethrows it as a
DataValidationError with a wrapping message. -/
def _process_field_value (value : PyVal) (field : String) (msg_name : String) :
    Except PyError PyVal :=
  match processFieldValueBody value field msg_name with
  | Except.ok v => Except.ok v
  | Except.error e =>
    Except.error (PyError.validation ("Failed to process field value: " ++ e.msg))

/-- A DuckDB table inside a session store: the declared schema (column
name and declared type, in creation order) and the stored rows, each row
aligned with the schema.  DuckDB NULL is `PyVal.none`. -/
structure Table where
  schema : List (String × String)
  rows : List (List PyVal)

/-- The engine state for one session: the in-memory catalog
`message_tables[session_id]` (insertion-ordered set of known message
names) and the physical tables of the session's store file. -/
structure SessionState where
  messageTables : List String
  tables : List (String × Table)

/-- A fresh session store: empty catalog, no tables. -/
def initSession : SessionState := ⟨[], []⟩

/-- A row as store_flight_data builds it: an ordered dict from field
name to processed value (fields whose column is too short are absent). -/
abbrev Row := List (String × PyVal)

/-- A message batch as parsed_json supplies it: an ordered dict from
field name to that field's column of raw values. -/
abbrev MsgData := List (String × List PyVal)

/-- Sequence a fallible map over a list, stopping at the first error —
the effect order of a Python `for` loop that may raise. -/
def exceptMapList {α β : Type} (f : α → Except PyError β) :
    List α → Except PyError (List β)
  | [] => Except.ok []
  | a :: as =>
    match f a with
    | Except.error e => Except.error e
    | Except.ok b =>
      match exceptMapList f as with
      | Except.error e => Except.error e
      | Except.ok bs => Except.ok (b :: bs)

/-- Python `value is not None and not isinstance(value, (int, float,
str, bool, list))`: the cell type check in store_flight_data's row
loop. -/
def cellTypeInvalid (value : PyVal) : Bool :=
  match value with
  | .none => false
  | v => !(isAllowedCellType v)

/-- One iteration of store_flight_data's row loop: build the row dict
for index `i`, visiting fields in order, skipping any field whose column
is shorter than `i+1`, rejecting unsupported cell types, and normalizing
each present cell with _process_field_value. -/
def buildRow (msg_name : String) (i : Nat) : MsgData → Except PyError Row
  | [] => Except.ok []
  | (field, col) :: rest =>
    if h : i < col.length then
      if cellTypeInvalid (col.get ⟨i, h⟩) then
        Except.error (PyError.validation
          ("Invalid data type for field " ++ pyQuote ++ field ++ pyQuote ++
           " in message " ++ msg_name ++ ": " ++ pyTypeStr (col.get ⟨i, h⟩)))
      else
        match _process_field_value (col.get ⟨i, h⟩) field msg_name with
        | Except.error e => Except.error e
        | Except.ok pv =>
          match buildRow msg_name i rest with
          | Except.error e => Except.error e
          | Except.ok r => Except.ok ((field, pv) :: r)
    else buildRow msg_name i rest

/-- store_flight_data's row-building loop over indices `0 .. numRows-1`. -/
def buildRows (msg_name : String) (data : MsgData) (numRows : Nat) :
    Except PyError (List Row) :=
  exceptMapList (fun i => buildRow msg_name i data) (List.range numRows)

/-- Python `max([len(msg_data[field]) for field in fields])` for a
non-empty field list (the caller guards emptiness). -/
def maxColLen (data : MsgData) : Nat :=
  (data.map (fun p => p.2.length)).foldr Nat.max 0

/-- The column-building loop of _create_table_for_message: each field
must be a key of the sample row, and its declared type is the inferred
type with the time-name override applied. -/
def buildColumns (sample_row : Row) : List String → Except PyError (List (String × String))
  | [] => Except.ok []
  | field :: rest =>
    match alookup field sample_row with
    | Option.none =>
      Except.error (PyError.validation
        ("Field " ++ pyQuote ++ field ++ pyQuote ++ " not found in sample row"))
    | Option.some sample =>
      match buildColumns sample_row rest with
      | Except.error e => Except.error e
      | Except.ok cols => Except.ok ((field, columnTypeFor field sample) :: cols)

/-- FlightDataDB._create_table_for_message: validates its arguments,
derives the schema from the sample row, issues CREATE TABLE IF NOT
EXISTS (a no-op when the table already physically exists) and marks the
message known in the catalog.  Any raised error is rethrown by the
method's own handler as FlightDataDBError with a wrapping message. -/
def _create_table_for_message (st : SessionState) (msg_name : String)
    (fields : List String) (sample_row : Row) : Except PyError SessionState :=
  let body : Except PyError SessionState :=
    if msg_name = "" ∨ fields.isEmpty ∨ sample_row.isEmpty then
      Except.error (PyError.validation "Missing required parameters for table creation")
    else
      match buildColumns sample_row fields with
      | Except.error e => Except.error e
      | Except.ok cols =>
        let tables :=
          match alookup msg_name st.tables with
          | Option.some _ => st.tables
          | Option.none => st.tables ++ [(msg_name, ⟨cols, []⟩)]
        let catalog :=
          if msg_name ∈ st.messageTables then st.messageTables
          else st.messageTables ++ [msg_name]
        Except.ok ⟨catalog, tables⟩
  match body with
  | Except.ok st2 => Except.ok st2
  | Except.error e =>
    Except.error (PyError.flightData ("Failed to create table: " ++ e.msg))

/-- The INSERT value list for one built row:
`[row.get(f) for f in fields]`, with a missing key giving NULL. -/
def rowValues (fields : List String) (row : Row) : List PyVal :=
  fields.map (fun f => (alookup f row).getD PyVal.none)

/-- Append the INSERT rows of one message to its physical table. -/
def insertRows (st : SessionState) (msg_name : String) (fields : List String)
    (rows : List Row) : SessionState :=
  ⟨st.messageTables,
   st.tables.map (fun p =>
     if p.1 = msg_name then
       (p.1, ⟨p.2.schema, p.2.rows ++ rows.map (rowValues fields)⟩)
     else p)⟩

/-- The body of store_flight_data's per-message `try` block: compute the
row count as the maximum column length, skip the message when it is
zero, build all rows, create the table on first sight of the message
(wrapping a creation failure as DatabaseConnectionError), then insert
the rows. -/
def processMessageBody (st : SessionState) (msg_name : String) (data : MsgData) :
    Except PyError SessionState :=
  let fields := data.map Prod.fst
  let numRows := maxColLen data
  if numRows = 0 then Except.ok st
  else
    match buildRows msg_name data numRows with
    | Except.error e => Except.error e
    | Except.ok rows =>
      let afterCreate : Except PyError SessionState :=
        if msg_name ∈ st.messageTables then Except.ok st
        else
          match _create_table_for_message st msg_name fields (rows.headD []) with
          | Except.ok st2 => Except.ok st2
          | Except.error e =>
            Except.error (PyError.connection
              ("Failed to create table for message " ++ msg_name ++ ": " ++ e.msg))
      match afterCreate with
      | Except.error e => Except.error e
      | Except.ok st2 => Except.ok (insertRows st2 msg_name fields rows)

/-- One iteration of store_flight_data's message loop: the empty-data
validation check, then the message body, whose failures the enclosing
handler rethrows as FlightDataDBError with a per-message wrap. -/
def processMessage (st : SessionState) (msg_name : String) (data : MsgData) :
    Except PyError SessionState :=
  if data.isEmpty then
    Except.error (PyError.validation
      ("Invalid message data format for " ++ msg_name ++
       ": must be a non-empty dictionary"))
  else
    match processMessageBody st msg_name data with
    | Except.ok st2 => Except.ok st2
    | Except.error e =>
      Except.error (PyError.flightData
        ("Failed to process message " ++ msg_name ++ ": " ++ e.msg))

/-- store_flight_data's message loop: messages are processed in payload
order; the first failure stops the loop, leaving the state already
committed by earlier messages. -/
def storeLoop (st : SessionState) : List (String × MsgData) →
    SessionState × Option PyError
  | [] => (st, Option.none)
  | (msg_name, data) :: rest =>
    match processMessage st msg_name data with
    | Except.ok st2 => storeLoop st2 rest
    | Except.error e => (st, Option.some e)

/-- FlightDataDB.store_flight_data for one session: rejects an empty
payload, runs the message loop, and rethrows the first failure as
FlightDataDBError with the outermost wrap.  The returned state is what
the session store holds when the call returns or raises. -/
def store_flight_data (st : SessionState) (parsed_json : List (String × MsgData)) :
    SessionState × Option PyError :=
  if parsed_json.isEmpty then
    (st, Option.some (PyError.validation
      "Invalid parsed_json: must be a non-empty dictionary"))
  else
    match storeLoop st parsed_json with
    | (st2, Option.some e) =>
      (st2, Option.some (PyError.flightData
        ("Failed to store flight data: " ++ e.msg)))
    | (st2, Option.none) => (st2, Option.none)

/-- The query call executing `SELECT "col" FROM "table"`: DuckDB (an
external collaborator) returns the named column's stored values in
insertion order, or fails when the table or column is absent. -/
def querySelectColumn (st : SessionState) (table col : String) :
    Option (List PyVal) :=
  match alookup table st.tables with
  | Option.none => Option.none
  | Option.some tab =>
    match tab.schema.findIdx? (fun p => p.1 = col) with
    | Option.none => Option.none
    | Option.some i =>
      Option.some (tab.rows.map (fun r => r.getD i PyVal.none))

/-- The JSON-decoding step of cleanup_existing_data for a cell of a
BIGINT/INTEGER-declared column whose value is text bracketed like an
encoded array: parse it; when the parse yields a non-empty list, take
its first element, descending one more level when that element is
itself a non-empty list; when the parse raises, the cell becomes null;
when the parse yields anything else the cell is left as the original
text. -/
def decodeWrappedNumeric (s : String) : PyVal :=
  match jsonLoads s with
  | Option.some (PyVal.list (p0 :: _)) =>
    match p0 with
    | PyVal.list (q0 :: _) => q0
    | _ => p0
  | Option.some _ => PyVal.str s
  | Option.none => PyVal.none

/-- The per-cell repair cleanup_existing_data applies in a
BIGINT/INTEGER-declared column: the JSON-decoding step for bracketed
text, then — for any non-null value — the coercion
`int(float(str(value)))`, with a failed coercion nulling the cell. -/
def cleanNumericCell (v : PyVal) : PyVal :=
  let v1 :=
    match v with
    | .str s => if strHeadIs s '[' && strLastIs s ']' then decodeWrappedNumeric s else PyVal.str s
    | _ => v
  match v1 with
  | .none => PyVal.none
  | v1 =>
    match intFloatStr v1 with
    | Option.some n => PyVal.int n
    | Option.none => PyVal.none

/-- The repair cleanup_existing_data applies to one cell given the
column's declared type: only BIGINT/INTEGER columns are touched; every
other declared type (DOUBLE included) copies the stored value
unchanged. -/
def cleanupCell (field_type : String) (v : PyVal) : PyVal :=
  if field_type = "BIGINT" ∨ field_type = "INTEGER" then cleanNumericCell v else v

/-- The shadow-table column type cleanup_existing_data declares for a
column of the original table. -/
def cleanupColumnType (t : String) : String :=
  if t = "BIGINT" ∨ t = "INTEGER" then "BIGINT"
  else if t = "DOUBLE" then "DOUBLE"
  else t

/-- One table's pass of cleanup_existing_data: an empty table is
skipped; otherwise every row is repaired cell-by-cell against the
declared schema, written to the shadow table built from the declared
schema, and the shadow table atomically replaces the original (drop
plus rename). -/
def cleanupTable (tab : Table) : Table :=
  if tab.rows.isEmpty then tab
  else
    ⟨tab.schema.map (fun p => (p.1, cleanupColumnType p.2)),
     tab.rows.map (fun row =>
       List.zipWith (fun (p : String × String) v => cleanupCell p.2 v) tab.schema row)⟩

/-- FlightDataDB.cleanup_existing_data for one session: every table the
session's catalog knows is repaired in place; tables unknown to the
catalog are untouched, and the catalog itself is unchanged (the shadow
table is renamed back to the original name). -/
def cleanup_existing_data (st : SessionState) : SessionState :=
  ⟨st.messageTables,
   st.tables.map (fun p =>
     if p.1 ∈ st.messageTables then (p.1, cleanupTable p.2) else p)⟩

/-- The whole engine's in-memory and on-disk state across sessions: the
`connections` dict (session ids with a live connection), the
`message_tables` dict (one catalog per session), and the per-session
store files on disk under the base directory. -/
structure EngineState where
  connections : List String
  message_tables : List (String × List String)
  diskFiles : List String

/-- FlightDataDB.close: releases every session's connection (which
flushes but does not delete the store file) and clears both dicts. -/
def close (e : EngineState) : EngineState :=
  ⟨[], [], e.diskFiles⟩

/-- A two-message ingest payload whose second message carries a
nested-mapping cell: the first message is well-formed, the second
fails the cell type check. -/
def dictCellPayload : List (String × MsgData) :=
  [("M1", [("a", [PyVal.int 1])]),
   ("M2", [("b", [PyVal.dict [("k", PyVal.int 2)]])])]

/-- Whether a raised error is a DataValidationError (as opposed to its
base class FlightDataDBError or a DatabaseConnectionError): what a
caller's `except DataValidationError` clause would observe. -/
def isValidationError : Option PyError → Bool
  | Option.some (PyError.validation _) => true
  | _ => false

end FlightDB

open FlightDB

/-- A fallible loop body mapped over a list yields one result per input
when no iteration fails. -/
theorem exceptMapList_ok_length {α β : Type} (f : α → Except PyError β) :
    ∀ (l : List α) (res : List β), exceptMapList f l = Except.ok res →
      res.length = l.length := by
  intro l
  induction l with
  | nil => intro res heq; simp [exceptMapList] at heq; subst heq; rfl
  | cons a as ih =>
    intro res heq
    unfold exceptMapList at heq
    split at heq
    · exact absurd heq (by simp)
    · split at heq
      · exact absurd heq (by simp)
      · rename_i bs hrest
        simp at heq
        subst heq
        simp [ih bs hrest]

/-- When a fallible mapped loop succeeds, its i-th result comes from the
i-th input. -/
theorem exceptMapList_ok_get {α β : Type} (f : α → Except PyError β) :
    ∀ (l : List α) (res : List β), exceptMapList f l = Except.ok res →
      ∀ (i : Nat) (h : i < l.length) (h2 : i < res.length),
        f (l.get ⟨i, h⟩) = Except.ok (res.get ⟨i, h2⟩) := by
  intro l
  induction l with
  | nil => intro res heq i h h2; exact absurd h (by simp)
  | cons a as ih =>
    intro res heq i h h2
    unfold exceptMapList at heq
    split at heq
    · exact absurd heq (by simp)
    · rename_i b hfa
      split at heq
      · exact absurd heq (by simp)
      · rename_i bs hrest
        simp at heq
        subst heq
        cases i with
        | zero => simpa using hfa
        | succ j =>
          exact ih bs hrest j (Nat.lt_of_succ_lt_succ h) (Nat.lt_of_succ_lt_succ h2)

/-- A built row holds no entry for a field name that is not among the
batch's fields. -/
theorem buildRow_absent_key (m : String) (i : Nat) (f : String) :
    ∀ (data : MsgData) (row : Row),
      f ∉ data.map Prod.fst →
      buildRow m i data = Except.ok row →
      alookup f row = Option.none := by
  intro data
  induction data with
  | nil =>
    intro row _ heq
    simp [buildRow] at heq
    subst heq
    rfl
  | cons p rest ih =>
    intro row hnotin heq
    obtain ⟨f2, col2⟩ := p
    have hne : f2 ≠ f := by
      intro hc; exact hnotin (by simp [hc])
    have hnotin2 : f ∉ rest.map Prod.fst := by
      intro hc; exact hnotin (by simp [hc])
    unfold buildRow at heq
    split at heq
    · split at heq
      · exact absurd heq (by simp)
      · split at heq
        · exact absurd heq (by simp)
        · split at heq
          · exact absurd heq (by simp)
          · rename_i r hrest
            simp at heq
            subst heq
            simp [alookup, hne, ih r hnotin2 hrest]
    · exact ih row hnotin2 heq

/-- A built row holds no entry for a field whose column is shorter than
the row index: the sparse-column case of the ingestor's row loop. -/
theorem buildRow_short_col_none (m : String) (i : Nat) (f : String) (col : List PyVal) :
    ∀ (data : MsgData) (row : Row),
      (data.map Prod.fst).Nodup →
      (f, col) ∈ data →
      col.length ≤ i →
      buildRow m i data = Except.ok row →
      alookup f row = Option.none := by
  intro data
  induction data with
  | nil => intro row _ hmem; exact absurd hmem (by simp)
  | cons p rest ih =>
    intro row hnodup hmem hlen heq
    obtain ⟨f2, col2⟩ := p
    have hnodup2 : (rest.map Prod.fst).Nodup := (List.nodup_cons.mp (by simpa using hnodup)).2
    have hf2notin : f2 ∉ rest.map Prod.fst := (List.nodup_cons.mp (by simpa using hnodup)).1
    rcases List.mem_cons.mp hmem with hhead | htail
    · -- (f, col) is the head entry: its column is too short, so the head
      -- field is skipped and f is not a key of the rest either
      injection hhead with h1 h2
      subst h1
      subst h2
      unfold buildRow at heq
      split at heq
      · omega
      · exact buildRow_absent_key m i f rest row hf2notin heq
    · -- (f, col) is a tail entry; the head key differs from f
      have hne : f2 ≠ f := by
        intro hc
        subst hc
        exact hf2notin (List.mem_map.mpr ⟨(f2, col), htail, rfl⟩)
      unfold buildRow at heq
      split at heq
      · split at heq
        · exact absurd heq (by simp)
        · split at heq
          · exact absurd heq (by simp)
          · split at heq
            · exact absurd heq (by simp)
            · rename_i r hrest
              simp at heq
              subst heq
              simp [alookup, hne, ih r hnodup2 htail hlen hrest]
      · exact ih row hnodup2 htail hlen heq

/-- A batch whose columns are all empty has row count zero. -/
theorem maxColLen_eq_zero :
    ∀ (data : MsgData), (∀ p ∈ data, p.2 = ([] : List PyVal)) → maxColLen data = 0 := by
  intro data
  induction data with
  | nil => intro _; rfl
  | cons p rest ih =>
    intro h
    have hp : p.2 = [] := h p (by simp)
    have hr := ih (fun q hq => h q (by simp [hq]))
    simp [maxColLen] at hr ⊢
    simp [hp, hr]

/-- C1 (code bug witness): the type inferencer maps a boolean sample to
BIGINT, not BOOLEAN.  Python's `bool` is a subclass of `int`, so the
leading `isinstance(sample, int)` branch captures both boolean values
and the source's own `isinstance(sample, bool) -> BOOLEAN` branch is
unreachable — the spec's table (boolean sample yields Boolean) states
the evident intent of that dead branch. -/
theorem infer_boolean_sample_yields_bigint :
    _infer_duckdb_type (PyVal.bool true) = "BIGINT" ∧
    _infer_duckdb_type (PyVal.bool false) = "BIGINT" :=
  ⟨rfl, rfl⟩

/-- C2: reconciliation of a table whose declared-BIGINT column `x`
holds the literal text "[[7,8]]" in one row rewrites that row's `x` to
the scalar 7, leaves the row count unchanged, and a second
reconciliation run on the now-clean table changes nothing. -/
theorem reconciliation_repairs_wrapped_integer_cell :
    cleanup_existing_data
        ⟨["T"], [("T", ⟨[("x", "BIGINT")], [[PyVal.str "[[7,8]]"], [PyVal.int 3]]⟩)]⟩ =
      ⟨["T"], [("T", ⟨[("x", "BIGINT")], [[PyVal.int 7], [PyVal.int 3]]⟩)]⟩ ∧
    (cleanupTable ⟨[("x", "BIGINT")], [[PyVal.str "[[7,8]]"], [PyVal.int 3]]⟩).rows.length =
      ([[PyVal.str "[[7,8]]"], [PyVal.int 3]] : List (List PyVal)).length ∧
    cleanup_existing_data (cleanup_existing_data
        ⟨["T"], [("T", ⟨[("x", "BIGINT")], [[PyVal.str "[[7,8]]"], [PyVal.int 3]]⟩)]⟩) =
      cleanup_existing_data
        ⟨["T"], [("T", ⟨[("x", "BIGINT")], [[PyVal.str "[[7,8]]"], [PyVal.int 3]]⟩)]⟩ :=
  ⟨rfl, rfl, rfl⟩

/-- C3 (counterexample): the claim says the value normalizer fails with
a validation error on a nested-mapping cell; in fact
_process_field_value returns successfully, coercing the dict to its
Python string representation via `str(value)`. -/
theorem normalizer_coerces_nested_mapping_counterexample :
    _process_field_value (PyVal.dict [("a", PyVal.int 1)]) "param" "PARM" =
      Except.ok (PyVal.str ("\x7b" ++ pyQuote ++ "a" ++ pyQuote ++ ": 1\x7d")) :=
  rfl

/-- C3 (amended): for every nested-mapping cell the value normalizer
succeeds, silently coercing the value to its Python string
representation; the validation error for such cells is raised by the
ingestor's cell type check before normalization is reached. -/
theorem normalizer_stringifies_nested_mapping
    (entries : List (String × PyVal)) (field msg_name : String) :
    _process_field_value (PyVal.dict entries) field msg_name =
      Except.ok (PyVal.str (pythonStr (PyVal.dict entries))) :=
  rfl

/-- C4 (counterexample): the claim says a text-encoded array in a
DOUBLE-declared column is decoded to its canonical scalar exactly as in
a BIGINT-declared column; in fact the reconciliation cell repair leaves
the DOUBLE-declared cell as the original text while the BIGINT-declared
cell is decoded. -/
theorem reconciliation_double_column_counterexample :
    cleanupCell "DOUBLE" (PyVal.str "[1]") = PyVal.str "[1]" ∧
    cleanupCell "BIGINT" (PyVal.str "[1]") = PyVal.int 1 ∧
    PyVal.str "[1]" ≠ PyVal.int 1 :=
  ⟨rfl, rfl, fun h => PyVal.noConfusion h⟩

/-- C4 (amended): the reconciliation engine decodes and coerces cells
only in columns declared BIGINT or INTEGER; every cell of a
DOUBLE-declared column is copied into the shadow table unchanged. -/
theorem reconciliation_leaves_double_columns_unchanged (v : PyVal) :
    cleanupCell "DOUBLE" v = v := by
  unfold cleanupCell
  exact if_neg (by decide)

/-- C5 (counterexample): the claim says ingestion of a message with a
nested-mapping cell fails with a ValidationError; the call does raise,
but the wrap-and-rethrow handlers rethrow the DataValidationError as
the base FlightDataDBError, so no DataValidationError reaches the
caller. -/
theorem ingest_nested_mapping_error_class_counterexample :
    isValidationError (store_flight_data initSession dictCellPayload).2 = false ∧
    (store_flight_data initSession dictCellPayload).2.isSome = true :=
  ⟨rfl, rfl⟩

/-- C5 (amended): ingestion of a message with a nested-mapping cell
fails — the cell type check's DataValidationError is rethrown as the
base FlightDataDBError — with zero rows committed for that message,
while all rows of the earlier message in the same call remain
committed. -/
theorem ingest_nested_mapping_partial_commit :
    (store_flight_data initSession dictCellPayload).1 =
      ⟨["M1"], [("M1", ⟨[("a", "BIGINT")], [[PyVal.int 1]]⟩)]⟩ ∧
    alookup "M2" (store_flight_data initSession dictCellPayload).1.tables = Option.none ∧
    (∃ m, (store_flight_data initSession dictCellPayload).2 =
      Option.some (PyError.flightData m)) :=
  ⟨rfl, rfl, _, rfl⟩

/-- C6: when the ingestor's row-building loop succeeds on a batch, it
produces exactly max-column-length rows, and a row index at or beyond a
shorter column's length leaves that field absent from the row (hence
NULL at insert); concretely, the batch A=[1,2,3], B=[10,20] yields
three rows whose third row stores NULL for B, with no error raised. -/
theorem ragged_columns_rows :
    (∀ (m : String) (data : MsgData) (rows : List Row),
      (data.map Prod.fst).Nodup →
      buildRows m data (maxColLen data) = Except.ok rows →
      rows.length = maxColLen data ∧
      ∀ (f : String) (col : List PyVal) (i : Nat) (hi : i < rows.length),
        (f, col) ∈ data → col.length ≤ i →
        alookup f (rows.get ⟨i, hi⟩) = Option.none) ∧
    processMessage initSession "M"
        [("A", [PyVal.int 1, PyVal.int 2, PyVal.int 3]),
         ("B", [PyVal.int 10, PyVal.int 20])] =
      Except.ok ⟨["M"], [("M", ⟨[("A", "BIGINT"), ("B", "BIGINT")],
        [[PyVal.int 1, PyVal.int 10],
         [PyVal.int 2, PyVal.int 20],
         [PyVal.int 3, PyVal.none]]⟩)]⟩ := by
  constructor
  · intro m data rows hnodup hbuild
    have hlen := exceptMapList_ok_length _ _ _ hbuild
    rw [List.length_range] at hlen
    refine ⟨hlen, ?_⟩
    intro f col i hi hmem hshort
    have hiR : i < (List.range (maxColLen data)).length := by
      simp
      omega
    have hget := exceptMapList_ok_get _ _ _ hbuild i hiR hi
    simp only [List.get_eq_getElem, List.getElem_range] at hget
    simp only [List.get_eq_getElem]
    exact buildRow_short_col_none m i f col data _ hnodup hmem hshort hget
  · rfl

/-- C6 witness: the general part of `ragged_columns_rows` applied to
the concrete ragged batch A=[1,2,3], B=[10,20] and its built rows. -/
theorem ragged_columns_rows_witness :
    ((([("A", [PyVal.int 1, PyVal.int 2, PyVal.int 3]),
        ("B", [PyVal.int 10, PyVal.int 20])] : MsgData).map Prod.fst).Nodup ∧
     buildRows "M"
        [("A", [PyVal.int 1, PyVal.int 2, PyVal.int 3]),
         ("B", [PyVal.int 10, PyVal.int 20])]
        (maxColLen [("A", [PyVal.int 1, PyVal.int 2, PyVal.int 3]),
                    ("B", [PyVal.int 10, PyVal.int 20])]) =
       Except.ok [[("A", PyVal.int 1), ("B", PyVal.int 10)],
                  [("A", PyVal.int 2), ("B", PyVal.int 20)],
                  [("A", PyVal.int 3)]]) ∧
    ([[("A", PyVal.int 1), ("B", PyVal.int 10)],
      [("A", PyVal.int 2), ("B", PyVal.int 20)],
      [("A", PyVal.int 3)]] : List Row).length =
      maxColLen [("A", [PyVal.int 1, PyVal.int 2, PyVal.int 3]),
                 ("B", [PyVal.int 10, PyVal.int 20])] ∧
    (∀ (f : String) (col : List PyVal) (i : Nat)
       (hi : i < ([[("A", PyVal.int 1), ("B", PyVal.int 10)],
                   [("A", PyVal.int 2), ("B", PyVal.int 20)],
                   [("A", PyVal.int 3)]] : List Row).length),
      (f, col) ∈ ([("A", [PyVal.int 1, PyVal.int 2, PyVal.int 3]),
                   ("B", [PyVal.int 10, PyVal.int 20])] : MsgData) →
      col.length ≤ i →
      alookup f (([[("A", PyVal.int 1), ("B", PyVal.int 10)],
                   [("A", PyVal.int 2), ("B", PyVal.int 20)],
                   [("A", PyVal.int 3)]] : List Row).get ⟨i, hi⟩) = Option.none) :=
  ⟨⟨by decide, rfl⟩, ragged_columns_rows.1 "M" _ _ (by decide) rfl⟩

/-- C7: storing a batch whose `time_unix_usec` cell is the
list-of-lists [[5]] stores the scalar 5 (the first element of the first
inner list, extracted by the normalizer's nested-time branch), and a
query on that column returns 5 rather than a list or text encoding. -/
theorem nested_time_round_trip :
    store_flight_data initSession
        [("M", [("time_unix_usec", [PyVal.list [PyVal.list [PyVal.int 5]]])])] =
      (⟨["M"], [("M", ⟨[("time_unix_usec", "BIGINT")], [[PyVal.int 5]]⟩)]⟩,
       Option.none) ∧
    querySelectColumn
        (store_flight_data initSession
          [("M", [("time_unix_usec", [PyVal.list [PyVal.list [PyVal.int 5]]])])]).1
        "M" "time_unix_usec" = Option.some [PyVal.int 5] ∧
    _process_field_value (PyVal.list [PyVal.list [PyVal.int 5]]) "time_unix_usec" "M" =
      Except.ok (PyVal.int 5) :=
  ⟨rfl, rfl, rfl⟩

/-- C8: a field whose lowercased name is in the fixed override set
("timeus", "time_boot_ms", "timestamp") is declared BIGINT at table
creation, whatever its sample value is. -/
theorem time_override_forces_bigint (field : String) (sample : PyVal)
    (h : lowerString field ∈ timeOverrideNames) :
    columnTypeFor field sample = "BIGINT" := by
  unfold columnTypeFor
  simp [h]

/-- C8 witness: the override applied to the mixed-case field name
"TimeUS" with a sample whose inferred type would be VARCHAR. -/
theorem time_override_forces_bigint_witness :
    lowerString "TimeUS" ∈ timeOverrideNames ∧
    columnTypeFor "TimeUS" (PyVal.str "x") = "BIGINT" :=
  ⟨by decide, time_override_forces_bigint "TimeUS" (PyVal.str "x") (by decide)⟩

/-- C9: a message whose field columns are all empty is silently
skipped: the session state is unchanged (no rows inserted, no table
created, the message stays absent from the catalog) and the ingest call
raises no error even when the message was previously unknown. -/
theorem empty_columns_message_skipped (st : SessionState) (msg_name : String)
    (data : MsgData) (hne : data ≠ []) (hcols : ∀ p ∈ data, p.2 = ([] : List PyVal)) :
    processMessage st msg_name data = Except.ok st ∧
    store_flight_data st [(msg_name, data)] = (st, Option.none) := by
  obtain ⟨p, rest, rfl⟩ := List.exists_cons_of_ne_nil hne
  have hmax : maxColLen (p :: rest) = 0 := maxColLen_eq_zero _ hcols
  have hpm : processMessage st msg_name (p :: rest) = Except.ok st := by
    unfold processMessage processMessageBody
    simp [hmax]
  refine ⟨hpm, ?_⟩
  unfold store_flight_data storeLoop
  simp [hpm, storeLoop]

/-- C9 witness: the skip applied to a fresh session and the one-field
message whose single column is empty. -/
theorem empty_columns_message_skipped_witness :
    (([("a", ([] : List PyVal))] : MsgData) ≠ [] ∧
     ∀ p ∈ ([("a", ([] : List PyVal))] : MsgData), p.2 = ([] : List PyVal)) ∧
    (processMessage initSession "M" [("a", [])] = Except.ok initSession ∧
     store_flight_data initSession [("M", [("a", [])])] = (initSession, Option.none)) :=
  ⟨⟨by simp, fun p hp => by
      rw [List.mem_singleton] at hp
      subst hp
      rfl⟩,
   empty_columns_message_skipped initSession "M" [("a", [])] (by simp)
     (fun p hp => by
       rw [List.mem_singleton] at hp
       subst hp
       rfl)⟩

/-- C10: one close call empties the whole connection map and the whole
per-session catalog map at once, for every session, while the
per-session store files on disk are untouched. -/
theorem close_clears_all_sessions (e : EngineState) :
    (close e).connections = [] ∧
    (close e).message_tables = [] ∧
    (close e).diskFiles = e.diskFiles :=
  ⟨rfl, rfl, rfl⟩
